import Mathlib

/-
Verification development for the raiden-pico glitch firmware.

The definitions below are a shallow embedding of the CPU-visible state and
operations of src/src/glitch.c and src/src/command_parser.c.  Machine
integers (uint32_t) are represented as Nat; every place where the C code can
wrap is reduced modulo 2^32 explicitly.  Hardware resources the CPU talks to
through memory-mapped registers (state-machine enables, TX FIFOs, output
pads, the shared PIO interrupt flag) are explicit fields of the state record.
-/

namespace RaidenPico

/-- Modulus of the uint32_t arithmetic used by the firmware. -/
def U32 : Nat := 4294967296

/-- Trigger variants, from trigger_type_t in src/include/config.h
(TRIGGER_NONE, TRIGGER_GPIO, TRIGGER_UART). -/
inductive TriggerType
  | none
  | gpio
  | uart
deriving DecidableEq

/-- Edge variants, from edge_type_t in src/include/config.h. -/
inductive EdgeType
  | rising
  | falling
deriving DecidableEq

/-- User-writable glitch configuration, from glitch_config_t in
src/include/config.h.  All uint32_t fields are Nat; trigger_pin and
trigger_byte are uint8_t in C, also Nat here. -/
structure GlitchConfig where
  pause_cycles : Nat
  width_cycles : Nat
  gap_cycles : Nat
  count : Nat
  trigger : TriggerType
  trigger_pin : Nat
  trigger_edge : EdgeType
  trigger_byte : Nat
deriving DecidableEq

/-- CPU-visible system state of src/src/glitch.c: the module globals
(config, flags.armed, glitch_count, clock_config, clock_boost_enabled)
together with the hardware registers the code reads and writes: the two
status output pads (PIN_ARMED = GP16, PIN_GLITCH_FIRED = GP12), the
enable bits of the four PIO state machines the module drives, the shared
PIO interrupt flag (GLITCH_IRQ_NUM = 0), and the TX FIFOs of the
edge-detect, pulse-generator, uart-trigger and clock-generator state
machines as word lists (front = oldest).  pio_has_room abstracts the
result of pio_can_add_program for the edge-detect program in glitch_arm;
it is environment input, not written by any modelled operation. -/
structure GlitchState where
  config : GlitchConfig
  armed : Bool
  glitch_count : Nat
  pin_armed : Bool
  pin_glitch_fired : Bool
  pin_clock : Bool
  sm_edge_enabled : Bool
  sm_pulse_enabled : Bool
  sm_uart_enabled : Bool
  sm_flag_enabled : Bool
  sm_clock_enabled : Bool
  irq_pending : Bool
  edgeFifo : List Nat
  pulseFifo : List Nat
  uartFifo : List Nat
  clockFifo : List Nat
  clock_boost_enabled : Bool
  clock_enabled : Bool
  clock_frequency : Nat
  pio_has_room : Bool
deriving DecidableEq

/-- Parameter setter glitch_set_pause (src/src/glitch.c line 114): stores the
value unconditionally, touching nothing else. -/
def glitch_set_pause (v : Nat) (s : GlitchState) : GlitchState :=
  { s with config := { s.config with pause_cycles := v } }

/-- Parameter setter glitch_set_width (src/src/glitch.c line 118). -/
def glitch_set_width (v : Nat) (s : GlitchState) : GlitchState :=
  { s with config := { s.config with width_cycles := v } }

/-- Parameter setter glitch_set_gap (src/src/glitch.c line 122). -/
def glitch_set_gap (v : Nat) (s : GlitchState) : GlitchState :=
  { s with config := { s.config with gap_cycles := v } }

/-- Parameter setter glitch_set_count (src/src/glitch.c line 126): stores any
uint32 value without validation. -/
def glitch_set_count (v : Nat) (s : GlitchState) : GlitchState :=
  { s with config := { s.config with count := v } }

/-- Trigger setter glitch_set_trigger_type (src/src/glitch.c line 130). -/
def glitch_set_trigger_type (t : TriggerType) (s : GlitchState) : GlitchState :=
  { s with config := { s.config with trigger := t } }

/-- Trigger setter glitch_set_trigger_pin (src/src/glitch.c line 134). -/
def glitch_set_trigger_pin (p : Nat) (e : EdgeType) (s : GlitchState) : GlitchState :=
  { s with config := { s.config with trigger_pin := p, trigger_edge := e } }

/-- Trigger setter glitch_set_trigger_byte (src/src/glitch.c line 139). -/
def glitch_set_trigger_byte (b : Nat) (s : GlitchState) : GlitchState :=
  { s with config := { s.config with trigger_byte := b } }

/-- Count word pushed second into the pulse FIFO, from src/src/glitch.c
line 263: config.count > 0 ? config.count - 1 : 0. -/
def countWord (c : Nat) : Nat := if c > 0 then c - 1 else 0

/-- Width/gap instruction-overhead compensation, from src/src/glitch.c
lines 255-256: the value is decremented by 5 only when it exceeds 5
(if (x > 5) x -= 5), otherwise it is left unchanged. -/
def adjustWG (v : Nat) : Nat := if v > 5 then v - 5 else v

/-- Decrement of a uint32 value modulo 2^32 (used for
target_half_period - 1 in src/src/glitch.c line 336, which wraps when the
integer division yields 0). -/
def u32dec (a : Nat) : Nat := (a + U32 - 1) % U32

/-- Second clock-boost FIFO word of src/src/glitch.c lines 329-336: the
baseline half-period restore value (clock_get_hz(clk_sys) / 2) /
frequency - 1 with the 150 MHz system clock. -/
def clockRestore (freq : Nat) : Nat := u32dec (75000000 / freq)

/-- Observable ordering events of one glitch_arm call: state-machine enable
writes and pulse-FIFO pushes, in program order. -/
inductive ArmEvent
  | enableEdgeSM
  | enablePulseSM
  | enableUartSM
  | pushPulse (word : Nat)
deriving DecidableEq

/-- Words pushed to the pulse-generator FIFO, extracted in order from an
event trace. -/
def pushedWords (evs : List ArmEvent) : List Nat :=
  evs.filterMap (fun e =>
    match e with
    | ArmEvent.pushPulse w => Option.some w
    | _ => Option.none)

/-- TRIGGER_GPIO branch of glitch_arm (src/src/glitch.c lines 168-221):
initialize the trigger pin, check pio_can_add_program (returning failure
when PIO0 instruction memory is full), load the edge-detect program for the
configured edge, configure the state machine, clear its FIFO, restart,
initialize, and enable it.  For other trigger types the branch is skipped.
Program loading and pin configuration have no CPU-visible state beyond the
modelled fields; the room check is the pio_has_room input. -/
def armTriggerGpio (s : GlitchState) : Option (GlitchState × List ArmEvent) :=
  if s.config.trigger = TriggerType.gpio then
    if s.pio_has_room then
      Option.some ({ s with edgeFifo := [], sm_edge_enabled := true },
                   [ArmEvent.enableEdgeSM])
    else Option.none
  else Option.some (s, [])

/-- Arm operation glitch_arm (src/src/glitch.c lines 145-344).  Returns the
C return value, the post state, and the trace of enable/push events in
program order.  Steps, in source order: early return false when already
armed (line 146); clear GLITCH_FIRED (151); disable both trigger state
machines (154-155); clear their FIFOs (158-159); remove resident trigger
programs (163-165, instruction-memory only); the TRIGGER_GPIO branch
(armTriggerGpio, enabling the edge-detect SM at line 213); clear the
pending IRQ (224); clear, restart and re-initialize the pulse generator and
load its FIFO with the four words pause, count-1, width adjusted, gap
adjusted (244-265); enable the pulse generator (268); the TRIGGER_UART
branch loading the match word trigger_byte << 24 and enabling the uart
decoder (272-323); the clock-boost FIFO load of count and the baseline
restore word when boost and clock are both enabled (327-337); raise
PIN_ARMED and set flags.armed (340-343). -/
def glitch_arm (s : GlitchState) : Bool × GlitchState × List ArmEvent :=
  if s.armed = true then (false, s, [])
  else
    let s1 : GlitchState :=
      { s with pin_glitch_fired := false,
               sm_edge_enabled := false, sm_uart_enabled := false,
               edgeFifo := [], uartFifo := [] }
    match armTriggerGpio s1 with
    | Option.none => (false, s1, [])
    | Option.some (s2, evs2) =>
      let s3 : GlitchState := { s2 with irq_pending := false }
      let words : List Nat :=
        [ s3.config.pause_cycles,
          countWord s3.config.count,
          adjustWG s3.config.width_cycles,
          adjustWG s3.config.gap_cycles ]
      let s4 : GlitchState := { s3 with pulseFifo := words }
      let evs4 : List ArmEvent := evs2 ++ words.map ArmEvent.pushPulse
      let s5 : GlitchState := { s4 with sm_pulse_enabled := true }
      let evs5 : List ArmEvent := evs4 ++ [ArmEvent.enablePulseSM]
      let r6 : GlitchState × List ArmEvent :=
        if s5.config.trigger = TriggerType.uart then
          ({ s5 with uartFifo := [s5.config.trigger_byte * 16777216],
                     irq_pending := false, sm_uart_enabled := true },
           evs5 ++ [ArmEvent.enableUartSM])
        else (s5, evs5)
      let s7 : GlitchState :=
        if r6.1.clock_boost_enabled = true ∧ r6.1.clock_enabled = true then
          { r6.1 with clockFifo := r6.1.clockFifo ++
              [r6.1.config.count, clockRestore r6.1.clock_frequency] }
        else r6.1
      (true, { s7 with pin_armed := true, armed := true }, r6.2)

/-- Disarm operation glitch_disarm (src/src/glitch.c lines 346-374): early
return when not armed; clear PIN_ARMED; disable the edge-detect, pulse and
uart state machines; clear the pending IRQ; clear the three FIFOs; clear
flags.armed. -/
def glitch_disarm (s : GlitchState) : GlitchState :=
  if s.armed = true then
    { s with pin_armed := false,
             sm_edge_enabled := false, sm_pulse_enabled := false,
             sm_uart_enabled := false,
             irq_pending := false,
             edgeFifo := [], pulseFifo := [], uartFifo := [],
             armed := false }
  else s

/-- Manual fire glitch_execute (src/src/glitch.c lines 376-408): fails when
not armed; otherwise spawns the one-instruction irq_trigger helper on the
flag-output state machine (enabled then disabled after a 1 us wait), which
raises GLITCH_FIRED and the shared IRQ (the helper program itself lives in
glitch.pio; its pad/IRQ effect here follows the spec description of the
manual-fire helper), increments glitch_count, and calls glitch_disarm. -/
def glitch_execute (s : GlitchState) : Bool × GlitchState :=
  if s.armed = true then
    let s1 : GlitchState :=
      { s with pin_glitch_fired := true, irq_pending := true,
               sm_flag_enabled := false }
    let s2 : GlitchState :=
      { s1 with glitch_count := (s1.glitch_count + 1) % U32 }
    (true, glitch_disarm s2)
  else (false, s)

/-- Reset operation glitch_reset (src/src/glitch.c lines 410-430): disarm if
armed, reset pause/width/gap/count/trigger to the boot defaults (the other
trigger fields are left alone), clear all flags, and zero glitch_count. -/
def glitch_reset (s : GlitchState) : GlitchState :=
  let s1 : GlitchState := if s.armed = true then glitch_disarm s else s
  { s1 with
    config := { s1.config with
                pause_cycles := 0, width_cycles := 100, gap_cycles := 100,
                count := 1, trigger := TriggerType.none },
    armed := false,
    glitch_count := 0 }

/-- Fired-counter read glitch_get_count (src/src/glitch.c lines 432-453):
when armed with a UART or GPIO trigger and the pulse-generator TX FIFO is
observed empty, it increments glitch_count, clears flags.armed (without
touching PIN_ARMED), and disables the active trigger state machine and the
pulse generator; in every other case it is a pure read.  Returns the
counter value after the check. -/
def glitch_get_count (s : GlitchState) : Nat × GlitchState :=
  if s.armed = true ∧ (s.config.trigger = TriggerType.uart ∨
                       s.config.trigger = TriggerType.gpio) then
    if s.pulseFifo = [] then
      let s1 : GlitchState :=
        { s with
          glitch_count := (s.glitch_count + 1) % U32,
          armed := false,
          sm_uart_enabled :=
            if s.config.trigger = TriggerType.uart then false
            else s.sm_uart_enabled,
          sm_edge_enabled :=
            if s.config.trigger = TriggerType.uart then s.sm_edge_enabled
            else if s.config.trigger = TriggerType.gpio then false
            else s.sm_edge_enabled,
          sm_pulse_enabled := false }
      (s1.glitch_count, s1)
    else (s.glitch_count, s)
  else (s.glitch_count, s)

/-- Clock state read clock_is_enabled (src/src/glitch.c line 575). -/
def clock_is_enabled (s : GlitchState) : Bool := s.clock_enabled

/-- Clock state read clock_get_frequency (src/src/glitch.c line 579). -/
def clock_get_frequency (s : GlitchState) : Nat := s.clock_frequency

/-- Clock start clock_enable (src/src/glitch.c lines 503-555): no-op when
already enabled or when the frequency is 0; otherwise clears the clock
state machine and FIFO, loads the period registers through exec pushes and
pulls (leaving the FIFO empty), enables the state machine, and sets
clock_boost_enabled and clock_config.enabled. -/
def clock_enable (s : GlitchState) : GlitchState :=
  if s.clock_enabled = true then s
  else if s.clock_frequency = 0 then s
  else
    { s with clockFifo := [], sm_clock_enabled := true,
             clock_boost_enabled := true, clock_enabled := true }

/-- Clock stop clock_disable (src/src/glitch.c lines 557-573): no-op when
not enabled; otherwise clears clock_boost_enabled, disables the state
machine, clears its FIFO, drives the clock pin low, and clears
clock_config.enabled. -/
def clock_disable (s : GlitchState) : GlitchState :=
  if s.clock_enabled = true then
    { s with clock_boost_enabled := false, sm_clock_enabled := false,
             clockFifo := [], pin_clock := false, clock_enabled := false }
  else s

/-- Frequency update clock_set_frequency (src/src/glitch.c lines 486-501):
disables a running clock, stores the frequency, and re-enables if it was
running. -/
def clock_set_frequency (f : Nat) (s : GlitchState) : GlitchState :=
  let was : Bool := s.clock_enabled
  let s1 : GlitchState := if was = true then clock_disable s else s
  let s2 : GlitchState := { s1 with clock_frequency := f }
  if was = true then clock_enable s2 else s2

/-- Default configuration written by glitch_init (src/src/glitch.c
lines 52-59). -/
def defaultConfig : GlitchConfig :=
  { pause_cycles := 0, width_cycles := 100, gap_cycles := 100, count := 1,
    trigger := TriggerType.none, trigger_pin := 3,
    trigger_edge := EdgeType.rising, trigger_byte := 0 }

/-- Boot state established by glitch_init (src/src/glitch.c lines 49-103):
defaults loaded, flags cleared, both status pads low, counter zero, no
state machine enabled, all FIFOs empty, clock unconfigured.  pio_has_room
is true at boot: only 13 of the 32 PIO0 instruction words are occupied. -/
def initState : GlitchState :=
  { config := defaultConfig, armed := false, glitch_count := 0,
    pin_armed := false, pin_glitch_fired := false, pin_clock := false,
    sm_edge_enabled := false, sm_pulse_enabled := false,
    sm_uart_enabled := false, sm_flag_enabled := false,
    sm_clock_enabled := false, irq_pending := false,
    edgeFifo := [], pulseFifo := [], uartFifo := [], clockFifo := [],
    clock_boost_enabled := false, clock_enabled := false,
    clock_frequency := 0, pio_has_room := true }

/-- Modelled from the spec: the pulse_generator PIO program lives in
src/glitch.pio, which is not under src/.  Per the spec (the pulse loop is a
count_minus_1 down-counter) and the comment at src/src/glitch.c line 261
(Load COUNT-1 because the PIO loop executes (COUNT-1)+1 times), one fire
emits exactly one more pulse than the count word pre-loaded into the pulse
FIFO. -/
def pulsesEmitted (countW : Nat) : Nat := countW + 1

/-- Modelled from the spec: the hardware fire step.  The trigger program
raises GLITCH_FIRED and the shared IRQ, and the pulse engine (glitch.pio,
not under src/) then drains all four pre-loaded FIFO words while rendering
the waveform, leaving the TX FIFO empty.  This is the asynchronous step the
polling in glitch_get_count detects. -/
def hw_fire (s : GlitchState) : GlitchState :=
  { s with pin_glitch_fired := true, pulseFifo := [] }

/-- Boolean prefix test on character lists, the semantics of
strncmp(ab, cand, strlen(ab)) == 0 used by command_parser_match
(src/src/command_parser.c line 92): the abbreviation must equal an initial
segment of the candidate. -/
def isPfx : List Char → List Char → Bool
  | [], _ => true
  | _ :: _, [] => false
  | a :: as, b :: bs => a = b && isPfx as bs

/-- Abbreviation matcher command_parser_match (src/src/command_parser.c
lines 81-106): collect the candidates the token is a prefix of; with
exactly one match return that candidate, with several return nothing
(ambiguous), with none return the original token unchanged. -/
def command_parser_match (tok : String) (candidates : List String) : Option String :=
  let hits : List String := candidates.filter (fun c => isPfx tok.data c.data)
  if hits.length = 1 then Option.some (hits.headD tok)
  else if hits.length > 1 then Option.none
  else Option.some tok

/-- Primary command candidate array of command_parser_execute
(src/src/command_parser.c lines 154-158).  The array has these 16
initializers; the count passed to match_and_replace at line 159 is 17,
one past the end of the array. -/
def primaryCommands : List String :=
  ["SET", "GET", "TRIGGER", "PINS",
   "STATUS", "RESET", "PLATFORM", "CS", "TARGET", "ARM", "GLITCH",
   "HELP", "REBOOT", "DEBUG", "API", "ERROR"]

/-- Verbs that have a strcmp dispatch branch in command_parser_execute
(src/src/command_parser.c lines 222-1141), in source order.  VERSION and
CLOCK have branches (lines 298 and 502) although they are absent from
primaryCommands, so they are reachable only by their exact full names. -/
def branchVerbs : List String :=
  ["HELP", "VERSION", "STATUS", "SET", "GET", "ARM", "CLOCK", "GLITCH",
   "RESET", "REBOOT", "DEBUG", "PINS", "TRIGGER", "TARGET", "CS", "API",
   "ERROR"]

/-- Outcome of dispatching the first token of a command line. -/
inductive DispatchResult
  | branch (verb : String)
  | ambiguousErr
  | unknownErr
deriving DecidableEq

/-- Verb dispatch of command_parser_execute: the first token is passed
through match_and_replace against primaryCommands (src/src/command_parser.c
line 159; an ambiguous token reports an error and skips execution), and the
resulting token is then compared by strcmp against the branch verbs, the
final else reporting an unknown command (line 1140). -/
def dispatchVerb (w : String) : DispatchResult :=
  match command_parser_match w primaryCommands with
  | Option.none => DispatchResult.ambiguousErr
  | Option.some v =>
    if branchVerbs.contains v then DispatchResult.branch v
    else DispatchResult.unknownErr

/-- The ARM ON branch of command_parser_execute (src/src/command_parser.c
lines 484-489).  Returns the new glitch state, the glitch_arm return value
(on false the branch sends the text ERROR: Failed to arm system through
uart_cli_send), and the value of the command_failed flag after the branch:
neither path calls api_error, so command_failed keeps the false it was
initialized to at line 146. -/
def cmdArmOn (s : GlitchState) : GlitchState × Bool × Bool :=
  let r := glitch_arm s
  (r.2.1, r.1, false)

/-- Final acknowledgement byte of command_parser_execute in API mode
(src/src/command_parser.c lines 1143-1151): a bang when command_failed was
set, a plus otherwise. -/
def apiAck (commandFailed : Bool) : Char :=
  if commandFailed = true then Char.ofNat 33 else Char.ofNat 43

/-- Commands of the host command surface that reference the glitch or clock
state, with their parsed arguments, as dispatched by command_parser_execute.
The remaining verbs (HELP, VERSION, PINS, DEBUG, API, ERROR, REBOOT,
PLATFORM, CS, TARGET) never read or write the glitch state or the fired
counter. -/
inductive Cmd
  | setPause (v : Nat)
  | setWidth (v : Nat)
  | setGap (v : Nat)
  | setCount (v : Nat)
  | getParams
  | triggerNone
  | triggerGpio (e : EdgeType)
  | triggerUart (b : Nat)
  | armOn
  | armOff
  | glitchCmd
  | statusCmd
  | resetCmd
  | clockFreq (f : Nat)
  | clockOn
  | clockOff
deriving DecidableEq

/-- State effect of one command, following the corresponding branch of
command_parser_execute (src/src/command_parser.c): SET calls the glitch
setter (lines 433-447); GET only reads (450-472); TRIGGER NONE/GPIO/UART
call the trigger setters, GPIO hardcoding pin 3 (646-684); ARM ON calls
glitch_arm (485), ARM OFF calls glitch_disarm (491); GLITCH calls
glitch_execute (562); STATUS calls glitch_get_count (359); RESET calls
glitch_reset (569); CLOCK with a frequency calls clock_set_frequency (537),
CLOCK ON refuses when no frequency is set and otherwise calls clock_enable
(543-547), CLOCK OFF calls clock_disable (550). -/
def execCmd : Cmd → GlitchState → GlitchState
  | Cmd.setPause v, s => glitch_set_pause v s
  | Cmd.setWidth v, s => glitch_set_width v s
  | Cmd.setGap v, s => glitch_set_gap v s
  | Cmd.setCount v, s => glitch_set_count v s
  | Cmd.getParams, s => s
  | Cmd.triggerNone, s => glitch_set_trigger_type TriggerType.none s
  | Cmd.triggerGpio e, s =>
      glitch_set_trigger_type TriggerType.gpio (glitch_set_trigger_pin 3 e s)
  | Cmd.triggerUart b, s =>
      glitch_set_trigger_type TriggerType.uart (glitch_set_trigger_byte b s)
  | Cmd.armOn, s => (glitch_arm s).2.1
  | Cmd.armOff, s => glitch_disarm s
  | Cmd.glitchCmd, s => (glitch_execute s).2
  | Cmd.statusCmd, s => (glitch_get_count s).2
  | Cmd.resetCmd, s => glitch_reset s
  | Cmd.clockFreq f, s => clock_set_frequency f s
  | Cmd.clockOn, s => if clock_get_frequency s = 0 then s else clock_enable s
  | Cmd.clockOff, s => clock_disable s

/-- Disarmed boot state with the GPIO rising-edge trigger selected, as
produced by the command TRIGGER GPIO RISING (src/src/command_parser.c
lines 649-656). -/
def sGpioArm : GlitchState :=
  glitch_set_trigger_type TriggerType.gpio
    (glitch_set_trigger_pin 3 EdgeType.rising initState)

lemma glitch_arm_glitch_count (s : GlitchState) :
    (glitch_arm s).2.1.glitch_count = s.glitch_count := by
  cases ha : s.armed <;>
    cases ht : s.config.trigger <;>
    cases hr : s.pio_has_room <;>
      simp [glitch_arm, armTriggerGpio, ha, ht, hr] <;>
      split <;> rfl

lemma glitch_disarm_glitch_count (s : GlitchState) :
    (glitch_disarm s).glitch_count = s.glitch_count := by
  unfold glitch_disarm
  split <;> rfl

/-- C6: writing a glitch parameter never touches the four words already
loaded into the pulse-engine TX FIFO, nor the armed flag, the ARMED pin or
the pulse state-machine enable: the setters write only their configuration
field, so a parameter write is observable only at the next arm, which
reloads the FIFO from the configuration. -/
theorem c6_setters_never_touch_loaded_fifo (s : GlitchState) (v : Nat) :
    ((glitch_set_pause v s).pulseFifo = s.pulseFifo ∧
     (glitch_set_width v s).pulseFifo = s.pulseFifo ∧
     (glitch_set_gap v s).pulseFifo = s.pulseFifo ∧
     (glitch_set_count v s).pulseFifo = s.pulseFifo) ∧
    ((glitch_set_pause v s).armed = s.armed ∧
     (glitch_set_width v s).armed = s.armed ∧
     (glitch_set_gap v s).armed = s.armed ∧
     (glitch_set_count v s).armed = s.armed) ∧
    ((glitch_set_pause v s).sm_pulse_enabled = s.sm_pulse_enabled ∧
     (glitch_set_width v s).sm_pulse_enabled = s.sm_pulse_enabled ∧
     (glitch_set_gap v s).sm_pulse_enabled = s.sm_pulse_enabled ∧
     (glitch_set_count v s).sm_pulse_enabled = s.sm_pulse_enabled) ∧
    ((glitch_set_pause v s).pin_armed = s.pin_armed ∧
     (glitch_set_width v s).pin_armed = s.pin_armed ∧
     (glitch_set_gap v s).pin_armed = s.pin_armed ∧
     (glitch_set_count v s).pin_armed = s.pin_armed) := by
  refine ⟨⟨rfl, rfl, rfl, rfl⟩, ⟨rfl, rfl, rfl, rfl⟩,
         ⟨rfl, rfl, rfl, rfl⟩, ⟨rfl, rfl, rfl, rfl⟩⟩

/-- C8: glitch_arm called while already armed returns false and leaves the
whole state unchanged (early return with no mutation and no event), and
glitch_execute called while disarmed returns false and leaves the whole
state unchanged. -/
theorem c8_wrong_state_ops_are_failing_noops (s : GlitchState) :
    (s.armed = true → glitch_arm s = (false, s, [])) ∧
    (s.armed = false → glitch_execute s = (false, s)) := by
  constructor
  · intro h
    simp [glitch_arm, h]
  · intro h
    simp [glitch_execute, h]

/-- Witness for C8 at concrete inputs: the state reached by arming from
boot with TRIGGER_NONE is armed, and a second arm fails without effect;
the boot state is disarmed, and a manual fire there fails without
effect. -/
theorem c8_wrong_state_ops_are_failing_noops_witness :
    glitch_arm (glitch_arm initState).2.1 =
      (false, (glitch_arm initState).2.1, []) ∧
    glitch_execute initState = (false, initState) :=
  ⟨(c8_wrong_state_ops_are_failing_noops (glitch_arm initState).2.1).1 (by decide),
   (c8_wrong_state_ops_are_failing_noops initState).2 (by decide)⟩

/-- C1 (code bug): along the reachable path TRIGGER GPIO RISING, ARM ON,
hardware fire, glitch_get_count, the equivalence between the ARMED output
pin and the armed flag is broken: glitch_arm establishes pin HIGH with
flag set, but the automatic disarm inside glitch_get_count clears the flag
without driving PIN_ARMED low (src/src/glitch.c lines 436-451 never call
gpio_put(PIN_ARMED, 0)), leaving the pin HIGH while disarmed. -/
theorem c1_auto_disarm_leaves_armed_pin_high :
    ((glitch_arm sGpioArm).2.1.armed = true ∧
     (glitch_arm sGpioArm).2.1.pin_armed = true) ∧
    ((glitch_get_count (hw_fire (glitch_arm sGpioArm).2.1)).2.armed = false ∧
     (glitch_get_count (hw_fire (glitch_arm sGpioArm).2.1)).2.pin_armed = true) := by
  decide

/-- C2 (code bug): arming from boot with the GPIO rising-edge trigger
succeeds and produces the event trace in which the edge-detect trigger
state machine is enabled first (src/src/glitch.c line 213) and the pulse
engine only afterwards (line 268), the opposite of the order the claim
states for GpioEdge. -/
theorem c2_gpio_trigger_sm_enabled_before_pulse_engine :
    (glitch_arm sGpioArm).1 = true ∧
    (glitch_arm sGpioArm).2.2 =
      [ArmEvent.enableEdgeSM, ArmEvent.pushPulse 0, ArmEvent.pushPulse 0,
       ArmEvent.pushPulse 95, ArmEvent.pushPulse 95,
       ArmEvent.enablePulseSM] := by
  decide

/-- C7 (code bug): with the system already armed (reachable by ARM ON from
boot), a second ARM ON fails (glitch_arm returns false, so the branch
emits the text ERROR: Failed to arm system), yet the command_failed flag
stays false because that branch never calls api_error, so the API-mode
acknowledgement byte is the plus sign (43) and not the bang (33) the spec
requires for a failed command. -/
theorem c7_failed_arm_on_acknowledged_with_plus :
    (cmdArmOn (glitch_arm initState).2.1).2.1 = false ∧
    (cmdArmOn (glitch_arm initState).2.1).2.2 = false ∧
    apiAck (cmdArmOn (glitch_arm initState).2.1).2.2 = Char.ofNat 43 ∧
    apiAck (cmdArmOn (glitch_arm initState).2.1).2.2 ≠ Char.ofNat 33 := by
  decide

/-- C9 (code bug): the abbreviation machinery works for verbs present in
the primaryCommands candidate array (STAT resolves to the STATUS branch,
and the ambiguous S is rejected), but the verb CLOCK of the command table
is missing from that array: the full name CLOCK still reaches its strcmp
branch, and CLOC is the unique prefix of CLOCK among all dispatchable
verbs, yet dispatch of CLOC reports an unknown command instead of behaving
like CLOCK. -/
theorem c9_clock_verb_cannot_be_abbreviated :
    dispatchVerb "STAT" = DispatchResult.branch "STATUS" ∧
    dispatchVerb "S" = DispatchResult.ambiguousErr ∧
    dispatchVerb "CLOCK" = DispatchResult.branch "CLOCK" ∧
    branchVerbs.filter (fun c => isPfx (String.data "CLOC") c.data) = ["CLOCK"] ∧
    dispatchVerb "CLOC" = DispatchResult.unknownErr := by
  decide

lemma glitch_arm_success_pulseFifo (s : GlitchState)
    (h1 : s.armed = false)
    (h2 : s.config.trigger = TriggerType.gpio → s.pio_has_room = true) :
    (glitch_arm s).1 = true ∧
    (glitch_arm s).2.1.pulseFifo =
      [s.config.pause_cycles, countWord s.config.count,
       adjustWG s.config.width_cycles, adjustWG s.config.gap_cycles] ∧
    pushedWords (glitch_arm s).2.2 =
      [s.config.pause_cycles, countWord s.config.count,
       adjustWG s.config.width_cycles, adjustWG s.config.gap_cycles] := by
  cases ht : s.config.trigger
  case gpio =>
    have hr : s.pio_has_room = true := h2 ht
    simp [glitch_arm, armTriggerGpio, ht, h1, hr, pushedWords,
          apply_ite GlitchState.pulseFifo]
  all_goals
    simp [glitch_arm, armTriggerGpio, ht, h1, pushedWords,
          apply_ite GlitchState.pulseFifo]

/-- C3: every successful arm loads the pulse-engine TX FIFO with exactly
the four words pause_cycles, count - 1, adjusted width, adjusted gap, in
that order, each pushed exactly once (the push trace equals that list),
given count is at least 1. -/
theorem c3_arm_pushes_exactly_four_words (s : GlitchState)
    (h1 : s.armed = false)
    (h2 : s.config.trigger = TriggerType.gpio → s.pio_has_room = true)
    (h3 : 1 ≤ s.config.count) :
    (glitch_arm s).1 = true ∧
    pushedWords (glitch_arm s).2.2 =
      [s.config.pause_cycles, s.config.count - 1,
       adjustWG s.config.width_cycles, adjustWG s.config.gap_cycles] ∧
    (glitch_arm s).2.1.pulseFifo =
      [s.config.pause_cycles, s.config.count - 1,
       adjustWG s.config.width_cycles, adjustWG s.config.gap_cycles] := by
  have hc : countWord s.config.count = s.config.count - 1 := by
    unfold countWord
    split <;> omega
  obtain ⟨hs, hf, hp⟩ := glitch_arm_success_pulseFifo s h1 h2
  rw [hc] at hf hp
  exact ⟨hs, hp, hf⟩

/-- Witness for C3 at the boot state: arming with the default parameters
pause 0, width 100, gap 100, count 1 succeeds and loads the four words
0, 0, 95, 95 once each, in order. -/
theorem c3_arm_pushes_exactly_four_words_witness :
    (glitch_arm initState).1 = true ∧
    pushedWords (glitch_arm initState).2.2 = [0, 0, 95, 95] ∧
    (glitch_arm initState).2.1.pulseFifo = [0, 0, 95, 95] := by
  have h := c3_arm_pushes_exactly_four_words initState (by decide) (by decide)
    (by decide)
  simpa using h

/-- C4 counterexample: arming after SET WIDTH 3 is not rejected, and the
width word pushed to the pulse FIFO is 3 itself: it is neither the
requested value minus the 5-cycle overhead saturated at 0 (Nat subtraction
3 - 5, which is 0) nor the 5-cycle floor, so the claimed
subtract-transparently-and-reject-or-saturate behaviour does not hold for
requests at or below the overhead. -/
theorem c4_counterexample_width_below_overhead :
    (glitch_arm (glitch_set_width 3 initState)).1 = true ∧
    (glitch_arm (glitch_set_width 3 initState)).2.1.pulseFifo =
      [0, 0, 3, 95] ∧
    ¬((3 : Nat) = 3 - 5 ∨ (3 : Nat) = 5) := by
  decide

/-- C4 amended: at every successful arm the width and gap words loaded
into the pulse FIFO are adjustWG of the requested values, where the
5-cycle instruction overhead is subtracted exactly when the request
exceeds 5 and requests of at most 5 cycles are loaded unchanged — never
rejected, never reduced below 0. -/
theorem c4_amended_overhead_subtracted_only_above_five (s : GlitchState)
    (h1 : s.armed = false)
    (h2 : s.config.trigger = TriggerType.gpio → s.pio_has_room = true) :
    ((glitch_arm s).1 = true ∧
     (glitch_arm s).2.1.pulseFifo =
       [s.config.pause_cycles, countWord s.config.count,
        adjustWG s.config.width_cycles, adjustWG s.config.gap_cycles]) ∧
    (∀ v : Nat, (5 < v → adjustWG v = v - 5) ∧ (v ≤ 5 → adjustWG v = v)) := by
  obtain ⟨hs, hf, _⟩ := glitch_arm_success_pulseFifo s h1 h2
  refine ⟨⟨hs, hf⟩, ?_⟩
  intro v
  constructor <;> intro hv <;> unfold adjustWG <;> split <;> omega

/-- Witness for the amended C4 at the boot state, instantiating the
overhead characterization at the requests 100 and 3. -/
theorem c4_amended_overhead_witness :
    ((glitch_arm initState).1 = true ∧
     (glitch_arm initState).2.1.pulseFifo =
       [initState.config.pause_cycles, countWord initState.config.count,
        adjustWG initState.config.width_cycles,
        adjustWG initState.config.gap_cycles]) ∧
    adjustWG 100 = 100 - 5 ∧ adjustWG 3 = 3 := by
  have h := c4_amended_overhead_subtracted_only_above_five initState
    (by decide) (by decide)
  exact ⟨h.1, (h.2 100).1 (by decide), (h.2 3).2 (by decide)⟩

/-- C5 counterexample: from boot, ARM ON then GLITCH drives the fired
counter to 1, and the RESET command (glitch_reset, src/src/glitch.c
line 427) then sets it back to 0, so the counter strictly decreases across
RESET and is not monotonically non-decreasing over the command surface. -/
theorem c5_counterexample_reset_zeroes_counter :
    (execCmd Cmd.glitchCmd (execCmd Cmd.armOn initState)).glitch_count = 1 ∧
    (execCmd Cmd.resetCmd
      (execCmd Cmd.glitchCmd (execCmd Cmd.armOn initState))).glitch_count = 0 ∧
    ¬((execCmd Cmd.glitchCmd (execCmd Cmd.armOn initState)).glitch_count ≤
      (execCmd Cmd.resetCmd
        (execCmd Cmd.glitchCmd (execCmd Cmd.armOn initState))).glitch_count) := by
  decide

lemma clock_enable_glitch_count (s : GlitchState) :
    (clock_enable s).glitch_count = s.glitch_count := by
  unfold clock_enable
  split
  · rfl
  · split <;> rfl

lemma clock_disable_glitch_count (s : GlitchState) :
    (clock_disable s).glitch_count = s.glitch_count := by
  unfold clock_disable
  split <;> rfl

lemma clock_set_frequency_glitch_count (f : Nat) (s : GlitchState) :
    (clock_set_frequency f s).glitch_count = s.glitch_count := by
  cases hw : s.clock_enabled <;>
    simp [clock_set_frequency, hw, clock_enable_glitch_count,
          clock_disable_glitch_count]

lemma glitch_execute_count_monotone (s : GlitchState)
    (h : s.glitch_count + 1 < U32) :
    s.glitch_count ≤ (glitch_execute s).2.glitch_count := by
  simp only [glitch_execute]
  split
  · simp only [glitch_disarm_glitch_count]
    rw [Nat.mod_eq_of_lt h]
    omega
  · simp

lemma glitch_get_count_count_monotone (s : GlitchState)
    (h : s.glitch_count + 1 < U32) :
    s.glitch_count ≤ (glitch_get_count s).2.glitch_count := by
  simp only [glitch_get_count]
  split
  · split
    · simp only
      rw [Nat.mod_eq_of_lt h]
      omega
    · simp
  · simp

/-- C5 amended: the fired counter is non-decreasing across every command
of the host surface except RESET (absent uint32 wrap of the counter
itself), while the RESET command sets it to 0 — a strict decrease whenever
the counter was positive, as the counterexample shows. -/
theorem c5_amended_counter_monotone_except_reset (c : Cmd) (s : GlitchState)
    (h1 : c ≠ Cmd.resetCmd)
    (h2 : s.glitch_count + 1 < U32) :
    s.glitch_count ≤ (execCmd c s).glitch_count ∧
    (execCmd Cmd.resetCmd s).glitch_count = 0 := by
  constructor
  · cases c with
    | setPause v => exact Nat.le_refl _
    | setWidth v => exact Nat.le_refl _
    | setGap v => exact Nat.le_refl _
    | setCount v => exact Nat.le_refl _
    | getParams => exact Nat.le_refl _
    | triggerNone => exact Nat.le_refl _
    | triggerGpio e => exact Nat.le_refl _
    | triggerUart b => exact Nat.le_refl _
    | armOn => exact Nat.le_of_eq (glitch_arm_glitch_count s).symm
    | armOff => exact Nat.le_of_eq (glitch_disarm_glitch_count s).symm
    | glitchCmd => exact glitch_execute_count_monotone s h2
    | statusCmd => exact glitch_get_count_count_monotone s h2
    | resetCmd => exact absurd rfl h1
    | clockFreq f => exact Nat.le_of_eq (clock_set_frequency_glitch_count f s).symm
    | clockOn =>
        simp only [execCmd]
        split
        · exact Nat.le_refl _
        · exact Nat.le_of_eq (clock_enable_glitch_count s).symm
    | clockOff => exact Nat.le_of_eq (clock_disable_glitch_count s).symm
  · simp [execCmd, glitch_reset]

/-- Witness for the amended C5 at a concrete armed state: GLITCH does not
decrease the counter there, and RESET drives it to 0. -/
theorem c5_amended_counter_monotone_witness :
    (glitch_arm initState).2.1.glitch_count ≤
      (execCmd Cmd.glitchCmd (glitch_arm initState).2.1).glitch_count ∧
    (execCmd Cmd.resetCmd (glitch_arm initState).2.1).glitch_count = 0 :=
  c5_amended_counter_monotone_except_reset Cmd.glitchCmd
    (glitch_arm initState).2.1 (by decide) (by decide)

/-- C10: glitch_set_count stores any value unvalidated (including 0); at a
successful arm the second FIFO word is count - 1 for positive count and 0
for count 0, so arming with count 0 loads a pulse FIFO identical to count
1, and per the pulse-loop semantics a fire then emits one pulse, not
zero. -/
theorem c10_count_zero_arms_like_count_one (s : GlitchState) (v : Nat)
    (h1 : s.armed = false)
    (h2 : s.config.trigger = TriggerType.gpio → s.pio_has_room = true) :
    (glitch_set_count v s).config.count = v ∧
    (glitch_arm s).2.1.pulseFifo =
      [s.config.pause_cycles, countWord s.config.count,
       adjustWG s.config.width_cycles, adjustWG s.config.gap_cycles] ∧
    countWord 0 = 0 ∧ countWord 1 = 0 ∧
    (glitch_arm (glitch_set_count 0 s)).2.1.pulseFifo =
      (glitch_arm (glitch_set_count 1 s)).2.1.pulseFifo ∧
    pulsesEmitted (countWord 0) = 1 := by
  have l0 := (glitch_arm_success_pulseFifo (glitch_set_count 0 s) h1 h2).2.1
  have l1 := (glitch_arm_success_pulseFifo (glitch_set_count 1 s) h1 h2).2.1
  refine ⟨rfl, (glitch_arm_success_pulseFifo s h1 h2).2.1, rfl, rfl, ?_, rfl⟩
  rw [l0, l1]
  simp [glitch_set_count, countWord]

/-- Witness for C10 at the boot state with the stored count 7. -/
theorem c10_count_zero_arms_like_count_one_witness :
    (glitch_set_count 7 initState).config.count = 7 ∧
    (glitch_arm initState).2.1.pulseFifo =
      [initState.config.pause_cycles, countWord initState.config.count,
       adjustWG initState.config.width_cycles,
       adjustWG initState.config.gap_cycles] ∧
    countWord 0 = 0 ∧ countWord 1 = 0 ∧
    (glitch_arm (glitch_set_count 0 initState)).2.1.pulseFifo =
      (glitch_arm (glitch_set_count 1 initState)).2.1.pulseFifo ∧
    pulsesEmitted (countWord 0) = 1 :=
  c10_count_zero_arms_like_count_one initState 7 (by decide) (by decide)

end RaidenPico
